import Mathlib

/-!
Verification development for the zhipi homework-grading service.

The definitions below are a shallow embedding of the two source files
`main.py` and `ocr_adapters.py`.  The pipeline `process_homework`, the
regrade loop `regrade_records`, and the OCR adapter factory and Tencent
request signer are translated function-by-function; external effects
(the per-image OCR call, the grading-model HTTP call, wall-clock time)
are supplied as explicit environment parameters, and every persisted
write of a record is collected into a log so that reachability over
sequences of upload / pipeline / regrade operations can be stated.
-/

set_option autoImplicit false

namespace Zhipi

/-- Outcome of handling one image inside the per-image loop of
`process_homework` (main.py lines 660-678): the stored file may be
missing, the OCR call may raise, or it may return a text. -/
inductive OCROutcome where
  | missing : OCROutcome
  | exn : String → OCROutcome
  | text : String → OCROutcome
deriving DecidableEq, Repr

/-- Outcome of the grading-model HTTP call (main.py lines 699-731):
either a response with an HTTP status, a body text, and — when the
status is 200 — the parsed `choices[0].message.content`, or a raised
transport exception with its message. -/
inductive GradeResponse where
  | resp : Nat → String → String → GradeResponse
  | raised : String → GradeResponse
deriving DecidableEq, Repr

/-- A persisted grading record, mirroring the JSON document created at
upload (main.py lines 525-534) and mutated by the pipeline and the
regrade loop.  Optional JSON keys (`previous_result`, `ocr_text`,
`error`) are `Option`; timestamps are abstract time values. -/
structure Record where
  id : String
  student : String
  images : List String
  status : String
  result : String
  previous_result : Option String
  regrade_count : Nat
  ocr_text : Option String
  error : Option String
  created_at : Nat
  updated_at : Nat
deriving DecidableEq, Repr

/-- Environment of one pipeline invocation: the OCR outcome for each
stored image path, whether `DEEPSEEK_API_KEY` is set, the grading
call's outcome, the plan's prompt (the value of
`config.get("prompt", ...)`), and the clock values used for the two
`updated_at` writes. -/
structure PipelineEnv where
  ocr : String → OCROutcome
  apiKeySet : Bool
  grade : GradeResponse
  prompt : String
  now1 : Nat
  now2 : Nat

/-- Result of one pipeline invocation: the records persisted by
`save_json`, in order, and the full prompt sent to the grading model
when that call was reached. -/
structure PipelineResult where
  saves : List Record
  request : Option String
deriving DecidableEq, Repr

/-- Python's `str.strip()`: drop whitespace from both ends, written by
structural recursion over the character list. -/
def pyStrip (s : String) : String :=
  String.mk (((s.data.dropWhile Char.isWhitespace).reverse.dropWhile Char.isWhitespace).reverse)

/-- Python's `str.lower()`, written by structural recursion over the
character list. -/
def pyLower (s : String) : String :=
  String.mk (s.data.map Char.toLower)

/-- Contribution of one image to `recognized_texts` (main.py lines
660-678): a missing file is skipped, a raising OCR call contributes a
failure placeholder, and a returned text contributes a labeled section
exactly when its strip is non-empty. -/
def ocrSection (idx : Nat) : OCROutcome → Option String
  | OCROutcome.missing => none
  | OCROutcome.exn msg => some ("【图片 " ++ toString idx ++ "】\n(识别失败: " ++ msg ++ ")")
  | OCROutcome.text t =>
      if pyStrip t = "" then none
      else some ("【图片 " ++ toString idx ++ "】\n" ++ t)

/-- The per-image loop of `process_homework`, collecting the sections
of `recognized_texts` starting from 1-based index `idx`. -/
def collectFrom (ocr : String → OCROutcome) : Nat → List String → List String
  | _, [] => []
  | idx, img :: rest =>
      match ocrSection idx (ocr img) with
      | some s => s :: collectFrom ocr (idx + 1) rest
      | none => collectFrom ocr (idx + 1) rest

/-- The failure handler of `process_homework` (main.py lines 733-741):
mark the in-memory record failed, store the triggering message, update
the timestamp. -/
def failRecord (r : Record) (msg : String) (now : Nat) : Record :=
  { r with status := "failed", error := some msg, updated_at := now }

/-- First persisted write of `process_homework` (main.py lines
646-648): mark the loaded record processing and stamp it. -/
def procBegin (env : PipelineEnv) (rec0 : Record) : Record :=
  { rec0 with status := "processing", updated_at := env.now1 }

/-- Remainder of `process_homework` after the processing write: the
OCR loop, the empty-text check, the API-key check, and the grading
call; returns the final persisted record and, when the grading call
was reached, the full prompt sent to it. -/
def procFinish (env : PipelineEnv) (rec1 : Record) : Record × Option String :=
  let sections := collectFrom env.ocr 1 rec1.images
  if sections = [] then
    (failRecord rec1 "OCR 未识别到任何文字内容" env.now2, none)
  else
    let all_text := String.intercalate "\n\n" sections
    if env.apiKeySet then
      let full_prompt := env.prompt ++ "\n\n【学生作业内容】\n" ++ all_text ++ "\n"
      match env.grade with
      | GradeResponse.resp httpStatus body content =>
          if httpStatus = 200 then
            ({ rec1 with
                status := "done"
                ocr_text := some all_text
                result := content
                updated_at := env.now2 }, some full_prompt)
          else
            (failRecord rec1
              ("DeepSeek API 调用失败: " ++ toString httpStatus ++ " - " ++ body)
              env.now2, some full_prompt)
      | GradeResponse.raised msg =>
          (failRecord rec1 msg env.now2, some full_prompt)
    else
      (failRecord rec1 "DEEPSEEK_API_KEY 未配置" env.now2, none)

/-- One invocation of `process_homework` (main.py lines 638-743) on a
record that was successfully loaded: the processing write followed by
the final write. -/
def process_homework (env : PipelineEnv) (rec0 : Record) : PipelineResult :=
  let rec1 := procBegin env rec0
  { saves := [rec1, (procFinish env rec1).1], request := (procFinish env rec1).2 }

/-- The record store of one plan: record id to stored document. -/
def Store : Type := String → Option Record

/-- Overwrite of one record document, the effect of `save_json` on the
per-plan store. -/
def setRec (s : Store) (k : String) (r : Record) : Store :=
  fun q => if q = k then some r else s q

/-- Body of the regrade loop for one loaded record (main.py lines
774-783): archive a non-empty result, reset status, clear the result,
bump the counter, stamp. -/
def regradeRecord (now : Nat) (r : Record) : Record :=
  let r1 := if r.result ≠ "" then { r with previous_result := some r.result } else r
  { r1 with
      status := "pending"
      result := ""
      regrade_count := r1.regrade_count + 1
      updated_at := now }

/-- Result of `regrade_records`: the updated store, the returned
count, the record ids enqueued for re-processing (in order), and every
(loaded, rewritten) pair persisted by the loop. -/
structure RegradeResult where
  store : Store
  count : Nat
  queued : List String
  writes : List (Record × Record)

/-- The regrade loop of `regrade_records` (main.py lines 767-789) over
an explicit id list: ids naming no record are skipped; each existing
record is reset via `regradeRecord`, persisted, and enqueued. -/
def regrade_records (s : Store) (ids : List String) (now : Nat) : RegradeResult :=
  match ids with
  | [] => { store := s, count := 0, queued := [], writes := [] }
  | recId :: rest =>
      match s recId with
      | none => regrade_records s rest now
      | some r =>
          let r2 := regradeRecord now r
          let res := regrade_records (setRec s recId r2) rest now
          { store := res.store
            count := res.count + 1
            queued := recId :: res.queued
            writes := (r, r2) :: res.writes }

/-- The operations that create or mutate records: an upload creating a
fresh pending record (main.py lines 466-547), one queued pipeline
invocation executing (`process_homework`), and one regrade call over
an explicit id list. -/
inductive Op where
  | upload : String → String → List String → Nat → Op
  | runTask : String → PipelineEnv → Op
  | regrade : List String → Nat → Op

/-- The record document created by an upload (main.py lines 525-534). -/
def uploadRecord (recId student : String) (images : List String) (now : Nat) : Record :=
  { id := recId
    student := student
    images := images
    status := "pending"
    result := ""
    previous_result := none
    regrade_count := 0
    ocr_text := none
    error := none
    created_at := now
    updated_at := now }

/-- System state observed across operations: the per-plan record
store, the (before-status, after-status) pair of every persisted
overwrite of an existing record, and every record version ever
persisted. -/
structure SysState where
  store : Store
  transitions : List (String × String)
  savesLog : List Record

/-- Status pairs of a chain of successive writes starting from a given
stored status. -/
def chainPairs : String → List String → List (String × String)
  | _, [] => []
  | a, b :: rest => (a, b) :: chainPairs b rest

/-- Effect of one operation on the system state.  A pipeline
invocation on a missing record is the invocation whose initial load
fails: nothing is persisted (main.py lines 733-742). -/
def step (s : SysState) : Op → SysState
  | Op.upload recId student images now =>
      let newRec := uploadRecord recId student images now
      let tr := match s.store recId with
        | some old => [(old.status, "pending")]
        | none => []
      { store := setRec s.store recId newRec
        transitions := s.transitions ++ tr
        savesLog := s.savesLog ++ [newRec] }
  | Op.runTask recId env =>
      match s.store recId with
      | none => s
      | some rec0 =>
          let pr := process_homework env rec0
          { store := pr.saves.foldl (fun st r => setRec st recId r) s.store
            transitions := s.transitions ++ chainPairs rec0.status (pr.saves.map Record.status)
            savesLog := s.savesLog ++ pr.saves }
  | Op.regrade ids now =>
      let res := regrade_records s.store ids now
      { store := res.store
        transitions := s.transitions ++ res.writes.map (fun w => (w.1.status, w.2.status))
        savesLog := s.savesLog ++ res.writes.map (fun w => w.2) }

/-- The empty system: no records yet. -/
def initState : SysState :=
  { store := fun _ => none, transitions := [], savesLog := [] }

/-- Execution of a sequence of operations from the empty system. -/
def execTrace (ops : List Op) : SysState :=
  ops.foldl step initState

/-- The Python exception classes raised by `ocr_adapters.py`:
`ValueError` by the factory, `NotImplementedError` by the Ali
adapter. -/
inductive PyError where
  | valueError : String → PyError
  | notImplementedError : String → PyError
deriving DecidableEq, Repr

/-- The keyword arguments accepted by `create_ocr_adapter`; each
`kwargs.get(...)` yields `none` when the key is absent. -/
structure OcrKwargs where
  secret_id : Option String := none
  secret_key : Option String := none
  region : Option String := none
  api_key : Option String := none
  access_key_id : Option String := none
  access_key_secret : Option String := none
deriving DecidableEq, Repr

/-- The constructed adapter with the credentials stored by its
`__init__` (ocr_adapters.py lines 34-51, 159-165, 207-212). -/
inductive OCRAdapterCfg where
  | tencent : Option String → Option String → String → OCRAdapterCfg
  | baidu : Option String → Option String → OCRAdapterCfg
  | ali : Option String → Option String → OCRAdapterCfg
deriving DecidableEq, Repr

/-- `AliOCRAdapter.recognize` (ocr_adapters.py lines 214-217): always
raises `NotImplementedError`, for every input image. -/
def aliRecognize (_imageBase64 : String) : Except PyError String :=
  Except.error (PyError.notImplementedError "阿里云 OCR 适配器待实现")

/-- The factory `create_ocr_adapter` (ocr_adapters.py lines 220-250):
lower-case the provider name, dispatch over the fixed enumeration,
raise `ValueError` on anything else. -/
def create_ocr_adapter (provider : String) (kw : OcrKwargs) : Except PyError OCRAdapterCfg :=
  let p := pyLower provider
  if p = "tencent" then
    Except.ok (OCRAdapterCfg.tencent kw.secret_id kw.secret_key (kw.region.getD "ap-guangzhou"))
  else if p = "baidu" then
    Except.ok (OCRAdapterCfg.baidu kw.api_key kw.secret_key)
  else if p = "ali" then
    Except.ok (OCRAdapterCfg.ali kw.access_key_id kw.access_key_secret)
  else
    Except.error (PyError.valueError
      ("不支持的 OCR 提供商: " ++ p ++ "，支持的有: tencent, baidu, ali"))

/-- Zero-padding to two digits, as in `%m` / `%d`. -/
def pad2 (n : Nat) : String :=
  if n < 10 then "0" ++ toString n else toString n

/-- Zero-padding to four digits, as in `%Y`. -/
def pad4 (n : Nat) : String :=
  if n < 10 then "000" ++ toString n
  else if n < 100 then "00" ++ toString n
  else if n < 1000 then "0" ++ toString n
  else toString n

/-- Civil date from a day count since the Unix epoch (the proleptic
Gregorian calendar computation underlying `time.gmtime`). -/
def civilFromDays (days : Nat) : Nat × Nat × Nat :=
  let z := days + 719468
  let era := z / 146097
  let doe := z % 146097
  let yoe := (doe - doe / 1460 + doe / 36524 - doe / 146096) / 365
  let y0 := yoe + era * 400
  let doy := doe - (365 * yoe + yoe / 4 - yoe / 100)
  let mp := (5 * doy + 2) / 153
  let d := doy - (153 * mp + 2) / 5 + 1
  let m := if mp < 10 then mp + 3 else mp - 9
  let y := if m ≤ 2 then y0 + 1 else y0
  (y, m, d)

/-- The date string `time.strftime("%Y-%m-%d", time.gmtime(timestamp))`
used for the credential scope (ocr_adapters.py line 74). -/
def gmtimeDate (timestamp : Nat) : String :=
  let ymd := civilFromDays (timestamp / 86400)
  pad4 ymd.1 ++ "-" ++ pad2 ymd.2.1 ++ "-" ++ pad2 ymd.2.2

/-- The cryptographic primitives of `hashlib` / `hmac` used by the
signer, injected as pure functions: a hex-encoded SHA-256, and
HMAC-SHA256 returning the raw digest respectively its hex encoding.
Raw byte strings are modelled as `String`. -/
structure CryptoPrims where
  sha256hex : String → String
  hmacSha256 : String → String → String
  hmacSha256hex : String → String → String

/-- `TencentOCRAdapter._sign` (ocr_adapters.py lines 53-101): the
canonical request, the string to sign, the three-round key derivation
date-scoped key → service-scoped key → request-scoped key, the final
signature, and the assembled Authorization header.  `payload` is the
JSON serialization `json.dumps(params)` of the request parameters. -/
def tencentSign (prims : CryptoPrims) (secretId secretKey : String)
    (payload : String) (timestamp : Nat) : String :=
  let endpoint := "ocr.tencentcloudapi.com"
  let service := "ocr"
  let httpRequestMethod := "POST"
  let canonicalUri := "/"
  let canonicalQuerystring := ""
  let canonicalHeaders := "content-type:application/json\nhost:" ++ endpoint ++ "\n"
  let signedHeaders := "content-type;host"
  let hashedRequestPayload := prims.sha256hex payload
  let canonicalRequest :=
    httpRequestMethod ++ "\n" ++ canonicalUri ++ "\n" ++ canonicalQuerystring ++ "\n" ++
      canonicalHeaders ++ "\n" ++ signedHeaders ++ "\n" ++ hashedRequestPayload
  let algorithm := "TC3-HMAC-SHA256"
  let date := gmtimeDate timestamp
  let credentialScope := date ++ "/" ++ service ++ "/tc3_request"
  let hashedCanonicalRequest := prims.sha256hex canonicalRequest
  let stringToSign :=
    algorithm ++ "\n" ++ toString timestamp ++ "\n" ++ credentialScope ++ "\n" ++
      hashedCanonicalRequest
  let secretDate := prims.hmacSha256 ("TC3" ++ secretKey) date
  let secretService := prims.hmacSha256 secretDate service
  let secretSigning := prims.hmacSha256 secretService "tc3_request"
  let signature := prims.hmacSha256hex secretSigning stringToSign
  algorithm ++ " " ++ "Credential=" ++ secretId ++ "/" ++ credentialScope ++ ", " ++
    "SignedHeaders=" ++ signedHeaders ++ ", " ++ "Signature=" ++ signature

/-- An image outcome that contributes nothing to `recognized_texts`:
the stored file is missing, or the OCR call returns text whose strip
is empty. -/
def unusable : OCROutcome → Bool
  | OCROutcome.missing => true
  | OCROutcome.text t => pyStrip t == ""
  | OCROutcome.exn _ => false

/-- An image outcome that contributes a labeled text section: the OCR
call returns text whose strip is non-empty. -/
def usableText : OCROutcome → Bool
  | OCROutcome.text t => !(pyStrip t == "")
  | _ => false

/-- The text returned by a successful OCR call. -/
def textOf : OCROutcome → String
  | OCROutcome.text t => t
  | _ => ""

/-- The labeled sections built from a list of OCR texts, starting at a
given 1-based image index. -/
def labeledSections : Nat → List String → List String
  | _, [] => []
  | k, t :: ts => ("【图片 " ++ toString k ++ "】\n" ++ t) :: labeledSections (k + 1) ts

/-- A stored status observed between operations: the pipeline always
ends an invocation in done or failed, so a record at rest is pending,
done, or failed. -/
def statusAtRest (r : Record) : Prop :=
  r.status = "pending" ∨ r.status = "done" ∨ r.status = "failed"

/-- Every record in the store is at rest. -/
def StoreOK (s : Store) : Prop :=
  ∀ k r, s k = some r → statusAtRest r

/-- Basic well-formedness of any persisted record version: one of the
four statuses, and an error message present whenever failed. -/
def saveWF (r : Record) : Prop :=
  (r.status = "pending" ∨ r.status = "processing" ∨ r.status = "done" ∨ r.status = "failed") ∧
    (r.status = "failed" → r.error.isSome = true)

lemma ocrSection_eq_none (k : Nat) (o : OCROutcome) (h : unusable o = true) :
    ocrSection k o = none := by
  cases o with
  | missing => rfl
  | text t =>
      have ht : pyStrip t = "" := by simpa [unusable] using h
      simp [ocrSection, ht]
  | exn m => simp [unusable] at h

lemma collectFrom_nil_of_unusable (ocr : String → OCROutcome) (imgs : List String)
    (h : ∀ img ∈ imgs, unusable (ocr img) = true) :
    ∀ k, collectFrom ocr k imgs = [] := by
  induction imgs with
  | nil => intro k; rfl
  | cons img rest ih =>
      intro k
      have h1 : unusable (ocr img) = true := h img (List.mem_cons_self _ _)
      have h2 : ∀ i ∈ rest, unusable (ocr i) = true := fun i hi => h i (List.mem_cons_of_mem _ hi)
      simp [collectFrom, ocrSection_eq_none k (ocr img) h1, ih h2 (k + 1)]

lemma collectFrom_of_usable (ocr : String → OCROutcome) (imgs : List String)
    (h : ∀ img ∈ imgs, usableText (ocr img) = true) :
    ∀ k, collectFrom ocr k imgs = labeledSections k (imgs.map fun i => textOf (ocr i)) := by
  induction imgs with
  | nil => intro k; rfl
  | cons img rest ih =>
      intro k
      have h1 : usableText (ocr img) = true := h img (List.mem_cons_self _ _)
      have h2 : ∀ i ∈ rest, usableText (ocr i) = true := fun i hi => h i (List.mem_cons_of_mem _ hi)
      cases ho : ocr img with
      | missing => rw [ho] at h1; simp [usableText] at h1
      | exn m => rw [ho] at h1; simp [usableText] at h1
      | text t =>
          rw [ho] at h1
          have ht : ¬ pyStrip t = "" := by simpa [usableText] using h1
          simp [collectFrom, ocrSection, ho, ht, labeledSections, ih h2 (k + 1), textOf]

lemma procBegin_status (env : PipelineEnv) (r : Record) :
    (procBegin env r).status = "processing" := rfl

lemma procFinish_wf (env : PipelineEnv) (r : Record) :
    ((procFinish env r).1.status = "done" ∨ (procFinish env r).1.status = "failed") ∧
      ((procFinish env r).1.status = "failed" → ((procFinish env r).1.error).isSome = true) := by
  by_cases hs : collectFrom env.ocr 1 r.images = []
  · simp [procFinish, hs, failRecord]
  · by_cases hk : env.apiKeySet = true
    · cases hg : env.grade with
      | resp httpStatus body content =>
          by_cases h200 : httpStatus = 200
          · simp [procFinish, hs, hk, hg, h200, failRecord]
          · simp [procFinish, hs, hk, hg, h200, failRecord]
      | raised m => simp [procFinish, hs, hk, hg, failRecord]
    · simp [procFinish, hs, hk, failRecord]

lemma process_saves (env : PipelineEnv) (rec0 : Record) :
    (process_homework env rec0).saves =
      [procBegin env rec0, (procFinish env (procBegin env rec0)).1] := rfl

lemma setRec_lookup (s : Store) (k q : String) (r : Record) :
    setRec s k r q = if q = k then some r else s q := rfl

lemma regrade_writes_pending (ids : List String) :
    ∀ (s : Store) (now : Nat) (w : Record × Record),
      w ∈ (regrade_records s ids now).writes → (w.2).status = "pending" := by
  induction ids with
  | nil => intro s now w hw; simp [regrade_records] at hw
  | cons recId rest ih =>
      intro s now w hw
      rw [regrade_records] at hw
      cases hs : s recId with
      | none => rw [hs] at hw; exact ih s now w hw
      | some r =>
          rw [hs] at hw
          simp only [List.mem_cons] at hw
          cases hw with
          | inl h => rw [h]; rfl
          | inr h => exact ih _ now w h

lemma regrade_store_ok (ids : List String) :
    ∀ (s : Store) (now : Nat), StoreOK s →
      StoreOK (regrade_records s ids now).store ∧
        ∀ w : Record × Record, w ∈ (regrade_records s ids now).writes → statusAtRest w.1 := by
  induction ids with
  | nil =>
      intro s now hs
      refine ⟨?_, ?_⟩
      · simpa [regrade_records] using hs
      · intro w hw; simp [regrade_records] at hw
  | cons recId rest ih =>
      intro s now hs
      rw [regrade_records]
      cases hlook : s recId with
      | none => exact ih s now hs
      | some r =>
          have hsok : StoreOK (setRec s recId (regradeRecord now r)) := by
            intro k rr hk
            rw [setRec_lookup] at hk
            by_cases hkq : k = recId
            · rw [if_pos hkq] at hk
              cases hk
              exact Or.inl rfl
            · rw [if_neg hkq] at hk
              exact hs k rr hk
          obtain ⟨ih1, ih2⟩ := ih (setRec s recId (regradeRecord now r)) now hsok
          refine ⟨ih1, ?_⟩
          intro w hw
          simp only [List.mem_cons] at hw
          cases hw with
          | inl h => rw [h]; exact hs recId r hlook
          | inr h => exact ih2 w h

lemma foldl_step_inv {P : SysState → Prop}
    (hstep : ∀ s op, P s → P (step s op)) :
    ∀ (ops : List Op) (s : SysState), P s → P (ops.foldl step s) := by
  intro ops
  induction ops with
  | nil => intro s hs; exact hs
  | cons op rest ih => intro s hs; exact ih (step s op) (hstep s op hs)

/-- The status transitions that the code actually realizes: a pipeline
invocation marks the loaded record processing whatever its stored
status was (a stale queued invocation may load a done or failed
record), an invocation ends in done or failed, and regrade resets any
existing record to pending without checking its current status. -/
def allowedTransitions : List (String × String) :=
  [("pending", "processing"), ("done", "processing"), ("failed", "processing"),
   ("processing", "done"), ("processing", "failed"),
   ("pending", "pending"), ("done", "pending"), ("failed", "pending")]

lemma pair_to_processing (r : Record) (h : statusAtRest r) :
    (r.status, "processing") ∈ allowedTransitions := by
  rcases h with h | h | h <;> rw [h] <;> decide

lemma pair_to_pending (r : Record) (h : statusAtRest r) :
    (r.status, "pending") ∈ allowedTransitions := by
  rcases h with h | h | h <;> rw [h] <;> decide

lemma step_runTask_some (s : SysState) (recId : String) (env : PipelineEnv) (rec0 : Record)
    (h : s.store recId = some rec0) :
    step s (Op.runTask recId env) =
      { store := setRec (setRec s.store recId (procBegin env rec0)) recId
          ((procFinish env (procBegin env rec0)).1)
        transitions := s.transitions ++
          [(rec0.status, "processing"),
           ("processing", ((procFinish env (procBegin env rec0)).1).status)]
        savesLog := s.savesLog ++
          [procBegin env rec0, (procFinish env (procBegin env rec0)).1] } := by
  simp only [step, h]
  rfl

lemma step_preserves_goodTrans (s : SysState) (op : Op)
    (hst : StoreOK s.store) (htr : ∀ p ∈ s.transitions, p ∈ allowedTransitions) :
    StoreOK (step s op).store ∧ ∀ p ∈ (step s op).transitions, p ∈ allowedTransitions := by
  cases op with
  | upload recId student imgs now =>
      constructor
      · intro k r hk
        simp only [step] at hk
        rw [setRec_lookup] at hk
        by_cases hkq : k = recId
        · rw [if_pos hkq] at hk
          cases hk
          exact Or.inl rfl
        · rw [if_neg hkq] at hk
          exact hst k r hk
      · intro p hp
        simp only [step] at hp
        rw [List.mem_append] at hp
        cases hp with
        | inl h => exact htr p h
        | inr h =>
            cases hlook : s.store recId with
            | none => rw [hlook] at h; simp at h
            | some old =>
                rw [hlook] at h
                simp only [List.mem_singleton] at h
                rw [h]
                exact pair_to_pending old (hst recId old hlook)
  | runTask recId env =>
      cases hlook : s.store recId with
      | none =>
          have heq : step s (Op.runTask recId env) = s := by simp only [step, hlook]
          rw [heq]
          exact ⟨hst, htr⟩
      | some rec0 =>
          rw [step_runTask_some s recId env rec0 hlook]
          have hfin := procFinish_wf env (procBegin env rec0)
          constructor
          · intro k r hk
            simp only at hk
            rw [setRec_lookup] at hk
            by_cases hkq : k = recId
            · rw [if_pos hkq] at hk
              cases hk
              rcases hfin.1 with h | h
              · exact Or.inr (Or.inl h)
              · exact Or.inr (Or.inr h)
            · rw [if_neg hkq, setRec_lookup, if_neg hkq] at hk
              exact hst k r hk
          · intro p hp
            simp only at hp
            rw [List.mem_append] at hp
            cases hp with
            | inl h => exact htr p h
            | inr h =>
                simp only [List.mem_cons, List.not_mem_nil, or_false] at h
                cases h with
                | inl h => rw [h]; exact pair_to_processing rec0 (hst recId rec0 hlook)
                | inr h =>
                    rw [h]
                    rcases hfin.1 with hd | hd <;> rw [hd] <;> decide
  | regrade ids now =>
      obtain ⟨h1, h2⟩ := regrade_store_ok ids s.store now hst
      constructor
      · intro k r hk
        simp only [step] at hk
        exact h1 k r hk
      · intro p hp
        simp only [step] at hp
        rw [List.mem_append] at hp
        cases hp with
        | inl h => exact htr p h
        | inr h =>
            rw [List.mem_map] at h
            obtain ⟨w, hw, hpw⟩ := h
            rw [← hpw, regrade_writes_pending ids s.store now w hw]
            exact pair_to_pending w.1 (h2 w hw)

lemma step_preserves_savesWF (s : SysState) (op : Op)
    (h : ∀ r ∈ s.savesLog, saveWF r) :
    ∀ r ∈ (step s op).savesLog, saveWF r := by
  cases op with
  | upload recId student imgs now =>
      intro r hr
      simp only [step] at hr
      rw [List.mem_append] at hr
      cases hr with
      | inl hh => exact h r hh
      | inr hh =>
          simp only [List.mem_singleton] at hh
          rw [hh]
          have hst0 : (uploadRecord recId student imgs now).status = "pending" := rfl
          exact ⟨Or.inl rfl, fun hc => absurd (hst0.symm.trans hc) (by decide)⟩
  | runTask recId env =>
      cases hlook : s.store recId with
      | none =>
          have heq : step s (Op.runTask recId env) = s := by simp only [step, hlook]
          rw [heq]
          exact h
      | some rec0 =>
          rw [step_runTask_some s recId env rec0 hlook]
          intro r hr
          simp only at hr
          rw [List.mem_append] at hr
          cases hr with
          | inl hh => exact h r hh
          | inr hh =>
              simp only [List.mem_cons, List.not_mem_nil, or_false] at hh
              have hfin := procFinish_wf env (procBegin env rec0)
              cases hh with
              | inl hh =>
                  rw [hh]
                  exact ⟨Or.inr (Or.inl rfl),
                    fun hc => absurd ((procBegin_status env rec0).symm.trans hc) (by decide)⟩
              | inr hh =>
                  rw [hh]
                  refine ⟨?_, hfin.2⟩
                  rcases hfin.1 with hd | hd
                  · exact Or.inr (Or.inr (Or.inl hd))
                  · exact Or.inr (Or.inr (Or.inr hd))
  | regrade ids now =>
      intro r hr
      simp only [step] at hr
      rw [List.mem_append] at hr
      cases hr with
      | inl hh => exact h r hh
      | inr hh =>
          rw [List.mem_map] at hh
          obtain ⟨w, hw, hrw⟩ := hh
          have hp := regrade_writes_pending ids s.store now w hw
          rw [← hrw]
          exact ⟨Or.inl hp, fun hc => absurd (hp.symm.trans hc) (by decide)⟩

lemma procBegin_images (env : PipelineEnv) (r : Record) :
    (procBegin env r).images = r.images := rfl

lemma failRecord_status (r : Record) (msg : String) (now : Nat) :
    (failRecord r msg now).status = "failed" := rfl

lemma process_no_text (env : PipelineEnv) (rec0 : Record)
    (hc : collectFrom env.ocr 1 rec0.images = []) :
    (process_homework env rec0).saves =
      [procBegin env rec0,
       failRecord (procBegin env rec0) "OCR 未识别到任何文字内容" env.now2] := by
  have hc2 : collectFrom env.ocr 1 (procBegin env rec0).images = [] := hc
  simp [process_homework, procFinish, hc2]

/-- The set of status transitions that the specification claims are
the only reachable ones, transcribed from the claim: pending→processing,
processing→done, processing→failed, and done/failed→pending via
regrade. -/
def specClaimedTransitions : List (String × String) :=
  [("pending", "processing"), ("processing", "done"), ("processing", "failed"),
   ("done", "pending"), ("failed", "pending")]

/-- C1 counterexample: upload a record (it stays pending until its
queued pipeline invocation runs) and immediately regrade it.
`regrade_records` does not inspect the current status, so the regrade
persists the transition pending→pending, which the claim explicitly
says is unreachable. -/
theorem c1_regrade_pending_self_loop :
    (execTrace [Op.upload "r" "stu" ["i1"] 0, Op.regrade ["r"] 1]).transitions =
        [("pending", "pending")] ∧
      ("pending", "pending") ∉ specClaimedTransitions := by
  refine ⟨?_, ?_⟩ <;> decide

/-- C1 (amended): through any sequence of upload, pipeline, and
regrade operations, every persisted status transition lies in
`allowedTransitions`: an invocation moves pending, done, or failed to
processing (done/failed arise when a stale queued invocation runs
after the record was already re-processed), an invocation ends
processing→done or processing→failed, and regrade moves pending, done,
or failed to pending (regrade does not check the current status, so
pending→pending is possible). -/
theorem reachable_status_transitions (ops : List Op) :
    ∀ p ∈ (execTrace ops).transitions, p ∈ allowedTransitions :=
  (@foldl_step_inv
    (fun st => StoreOK st.store ∧ ∀ p ∈ st.transitions, p ∈ allowedTransitions)
    (fun st op hp => step_preserves_goodTrans st op hp.1 hp.2) ops initState
    ⟨fun k r hk => absurd hk (by simp [initState]),
     fun p hp => absurd hp (List.not_mem_nil p)⟩).2

/-- A concrete trace on which the amended C1 theorem applies: the
upload's queued invocation runs and succeeds. -/
def c1WitnessTrace : List Op :=
  [Op.upload "r" "stu" ["i1"] 0,
   Op.runTask "r"
     { ocr := fun _ => OCROutcome.text "x"
       apiKeySet := true
       grade := GradeResponse.resp 200 "" "ok"
       prompt := "P"
       now1 := 1
       now2 := 2 }]

theorem reachable_status_transitions_witness :
    ("pending", "processing") ∈ (execTrace c1WitnessTrace).transitions ∧
      ("pending", "processing") ∈ allowedTransitions :=
  ⟨by decide,
   reachable_status_transitions c1WitnessTrace ("pending", "processing") (by decide)⟩

/-- C2 counterexample environment: every OCR call raises, the API key
is set, and the grading call succeeds. -/
def c2Env : PipelineEnv :=
  { ocr := fun _ => OCROutcome.exn "api error"
    apiKeySet := true
    grade := GradeResponse.resp 200 "" "Grade: A"
    prompt := "P"
    now1 := 1
    now2 := 2 }

/-- C2 counterexample record: two images, both of which will raise. -/
def c2Rec : Record := uploadRecord "r" "stu" ["i1", "i2"] 0

/-- C2 is false as stated: when the OCR call raises for every image,
each image contributes a failure placeholder to the combined text, so
the text is non-empty, grading proceeds, and the record ends done —
not failed. -/
theorem c2_all_raise_reaches_done :
    (∀ img ∈ c2Rec.images, c2Env.ocr img = OCROutcome.exn "api error") ∧
      (process_homework c2Env c2Rec).saves.map Record.status = ["processing", "done"] ∧
      ((process_homework c2Env c2Rec).saves.getLast?).map Record.result = some "Grade: A" := by
  refine ⟨?_, ?_, ?_⟩ <;> decide

/-- C2 (amended): if every image of the record yields no usable text
without raising — its stored file is missing or its OCR call returns
empty or whitespace-only text — then the invocation ends failed with
the no-recognized-text error and no persisted state of the invocation
is done.  (A record whose images all raise instead gets placeholder
sections and can reach done.) -/
theorem c2_no_usable_text_fails (env : PipelineEnv) (rec0 : Record)
    (hall : ∀ img ∈ rec0.images, unusable (env.ocr img) = true) :
    ∃ fin, (process_homework env rec0).saves.getLast? = some fin ∧
      fin.status = "failed" ∧
      fin.error = some "OCR 未识别到任何文字内容" ∧
      ∀ r ∈ (process_homework env rec0).saves, r.status ≠ "done" := by
  have hc : collectFrom env.ocr 1 rec0.images = [] :=
    collectFrom_nil_of_unusable env.ocr rec0.images hall 1
  have hsv := process_no_text env rec0 hc
  refine ⟨failRecord (procBegin env rec0) "OCR 未识别到任何文字内容" env.now2, ?_, rfl, rfl, ?_⟩
  · rw [hsv]; rfl
  · intro r hr
    rw [hsv] at hr
    simp only [List.mem_cons, List.not_mem_nil, or_false] at hr
    cases hr with
    | inl h => rw [h, procBegin_status]; decide
    | inr h => rw [h, failRecord_status]; decide

/-- Witness environment for the amended C2: one missing image file and
one whitespace-only OCR result. -/
def c2wEnv : PipelineEnv :=
  { ocr := fun s => if s = "i1" then OCROutcome.missing else OCROutcome.text " \n "
    apiKeySet := true
    grade := GradeResponse.resp 200 "" "ok"
    prompt := "P"
    now1 := 1
    now2 := 2 }

/-- Witness record for the amended C2. -/
def c2wRec : Record := uploadRecord "r" "stu" ["i1", "i2"] 0

theorem c2_no_usable_text_fails_witness :
    (∀ img ∈ c2wRec.images, unusable (c2wEnv.ocr img) = true) ∧
      (∃ fin, (process_homework c2wEnv c2wRec).saves.getLast? = some fin ∧
        fin.status = "failed" ∧
        fin.error = some "OCR 未识别到任何文字内容" ∧
        ∀ r ∈ (process_homework c2wEnv c2wRec).saves, r.status ≠ "done") :=
  ⟨by decide, c2_no_usable_text_fails c2wEnv c2wRec (by decide)⟩

/-- C3: when the grading model is reached and returns a non-200
status, the invocation ends failed with the recorded API error
message; the result field stays empty and the computed OCR text is not
persisted — `ocr_text` is exactly what it was before the
invocation. -/
theorem c3_grading_non_success_fails (env : PipelineEnv) (rec0 : Record)
    (code : Nat) (body content : String)
    (hg : env.grade = GradeResponse.resp code body content)
    (hc : code ≠ 200)
    (hkey : env.apiKeySet = true)
    (hsec : collectFrom env.ocr 1 rec0.images ≠ [])
    (hres : rec0.result = "") :
    ∃ fin, (process_homework env rec0).saves.getLast? = some fin ∧
      fin.status = "failed" ∧
      fin.error = some ("DeepSeek API 调用失败: " ++ toString code ++ " - " ++ body) ∧
      fin.result = "" ∧
      fin.ocr_text = rec0.ocr_text := by
  have hsec2 : collectFrom env.ocr 1 (procBegin env rec0).images ≠ [] := hsec
  have h1 : (procFinish env (procBegin env rec0)).1 =
      failRecord (procBegin env rec0)
        ("DeepSeek API 调用失败: " ++ toString code ++ " - " ++ body) env.now2 := by
    simp [procFinish, hsec2, hkey, hg, hc]
  refine ⟨(procFinish env (procBegin env rec0)).1, rfl, ?_, ?_, ?_, ?_⟩
  · rw [h1, failRecord_status]
  · rw [h1]; rfl
  · rw [h1]; exact hres
  · rw [h1]; rfl

/-- Witness environment for C3: usable OCR text, API key set, grading
returns HTTP 500. -/
def c3Env : PipelineEnv :=
  { ocr := fun _ => OCROutcome.text "2+2=4"
    apiKeySet := true
    grade := GradeResponse.resp 500 "Internal Server Error" ""
    prompt := "P"
    now1 := 1
    now2 := 2 }

/-- Witness record for C3. -/
def c3Rec : Record := uploadRecord "r" "stu" ["i1"] 0

theorem c3_grading_non_success_fails_witness :
    c3Env.grade = GradeResponse.resp 500 "Internal Server Error" "" ∧
      (500 : Nat) ≠ 200 ∧
      c3Env.apiKeySet = true ∧
      collectFrom c3Env.ocr 1 c3Rec.images ≠ [] ∧
      c3Rec.result = "" ∧
      (∃ fin, (process_homework c3Env c3Rec).saves.getLast? = some fin ∧
        fin.status = "failed" ∧
        fin.error = some ("DeepSeek API 调用失败: " ++ toString (500 : Nat) ++ " - " ++
          "Internal Server Error") ∧
        fin.result = "" ∧
        fin.ocr_text = c3Rec.ocr_text) :=
  ⟨rfl, by decide, rfl, by decide, rfl,
   c3_grading_non_success_fails c3Env c3Rec 500 "Internal Server Error" ""
     rfl (by decide) rfl (by decide) rfl⟩

/-- C4: regrading an existing record that holds a non-empty result
persists a record whose previous_result is the prior result, whose
result is empty, whose status is pending, and whose regrade counter is
the prior counter plus one. -/
theorem c4_regrade_archives_previous_result (s : Store) (recId : String) (r : Record)
    (now : Nat) (hlook : s recId = some r) (hres : r.result ≠ "") :
    ∃ r2, (regrade_records s [recId] now).store recId = some r2 ∧
      r2.previous_result = some r.result ∧
      r2.result = "" ∧
      r2.status = "pending" ∧
      r2.regrade_count = r.regrade_count + 1 := by
  have hreg : regradeRecord now r =
      { r with
          previous_result := some r.result
          status := "pending"
          result := ""
          regrade_count := r.regrade_count + 1
          updated_at := now } := by
    simp only [regradeRecord]
    rw [if_pos hres]
  have hstore : (regrade_records s [recId] now).store recId = some (regradeRecord now r) := by
    simp [regrade_records, hlook, setRec]
  exact ⟨regradeRecord now r, hstore, by rw [hreg], by rw [hreg], by rw [hreg], by rw [hreg]⟩

/-- Witness record for C4: a done record with a non-empty result. -/
def c4Rec : Record :=
  { uploadRecord "a" "stu" ["i1"] 0 with result := "old grade", status := "done" }

/-- Witness store for C4. -/
def c4Store : Store := fun k => if k = "a" then some c4Rec else none

theorem c4_regrade_archives_previous_result_witness :
    c4Store "a" = some c4Rec ∧
      c4Rec.result ≠ "" ∧
      (∃ r2, (regrade_records c4Store ["a"] 5).store "a" = some r2 ∧
        r2.previous_result = some c4Rec.result ∧
        r2.result = "" ∧
        r2.status = "pending" ∧
        r2.regrade_count = c4Rec.regrade_count + 1) :=
  ⟨rfl, by decide, c4_regrade_archives_previous_result c4Store "a" c4Rec 5 rfl (by decide)⟩

/-- C5: over an explicit id list, ids naming no existing record are
silently skipped: the returned count is the number of listed ids whose
record exists, and exactly those records are re-queued, in list
order.  In particular a list with one real and one nonexistent id
returns count 1 and re-queues only the real record. -/
theorem c5_regrade_skips_missing_ids (s : Store) (ids : List String) (now : Nat) :
    (regrade_records s ids now).count = (ids.filter fun i => (s i).isSome).length ∧
      (regrade_records s ids now).queued = ids.filter fun i => (s i).isSome := by
  induction ids generalizing s with
  | nil => exact ⟨rfl, rfl⟩
  | cons recId rest ih =>
      cases hlook : s recId with
      | none =>
          have hf : (recId :: rest).filter (fun i => (s i).isSome) =
              rest.filter (fun i => (s i).isSome) := by
            simp [List.filter_cons, hlook]
          constructor
          · simp only [regrade_records, hlook]
            rw [hf]
            exact (ih s).1
          · simp only [regrade_records, hlook]
            rw [hf]
            exact (ih s).2
      | some r =>
          have hsame : ∀ x ∈ rest,
              ((setRec s recId (regradeRecord now r)) x).isSome = (s x).isSome := by
            intro x hx
            rw [setRec_lookup]
            by_cases hxq : x = recId
            · rw [if_pos hxq, hxq, hlook]; rfl
            · rw [if_neg hxq]
          have hfrest : rest.filter (fun i => ((setRec s recId (regradeRecord now r)) i).isSome) =
              rest.filter (fun i => (s i).isSome) := List.filter_congr hsame
          have hf : (recId :: rest).filter (fun i => (s i).isSome) =
              recId :: rest.filter (fun i => (s i).isSome) := by
            simp [List.filter_cons, hlook]
          obtain ⟨ihc, ihq⟩ := ih (setRec s recId (regradeRecord now r))
          constructor
          · simp only [regrade_records, hlook]
            rw [hf]
            simp only [List.length_cons]
            rw [ihc, hfrest]
          · simp only [regrade_records, hlook]
            rw [hf, ihq, hfrest]

/-- C6 counterexample environment: OCR returns empty text, so the
invocation fails with the no-recognized-text error. -/
def c6FailEnv : PipelineEnv :=
  { ocr := fun _ => OCROutcome.text ""
    apiKeySet := true
    grade := GradeResponse.resp 200 "" "G"
    prompt := "P"
    now1 := 2
    now2 := 3 }

/-- C6 counterexample environment: a fully successful invocation. -/
def c6OkEnv : PipelineEnv :=
  { ocr := fun _ => OCROutcome.text "answer"
    apiKeySet := true
    grade := GradeResponse.resp 200 "" "Grade: B"
    prompt := "P"
    now1 := 7
    now2 := 8 }

/-- C6 counterexample trace: record r fails and is regraded (regrade
never clears the error field, so r is pending with error set); record
q is regraded while still pending, leaving a second queued invocation
that later re-runs on the already done record (carrying its non-empty
result into a processing state). -/
def c6Trace : List Op :=
  [Op.upload "r" "stu" ["i1"] 0,
   Op.runTask "r" c6FailEnv,
   Op.regrade ["r"] 4,
   Op.upload "q" "stu" ["j1"] 5,
   Op.regrade ["q"] 6,
   Op.runTask "q" c6OkEnv,
   Op.runTask "q" c6OkEnv]

/-- C6 is false as stated: after the trace above, record r is pending
with its error field still set (violating "error is set iff status is
failed"), and a persisted state with status processing carries a
non-empty result (violating "result is non-empty iff status is
done"). -/
theorem c6_field_invariants_cex :
    ((execTrace c6Trace).store "r").map Record.status = some "pending" ∧
      ((execTrace c6Trace).store "r").map (fun r => r.error.isSome) = some true ∧
      ((execTrace c6Trace).savesLog.any fun r =>
        r.status == "processing" && !(r.result == "")) = true := by
  refine ⟨?_, ?_, ?_⟩ <;> decide

/-- C6 (amended): every record state persisted by any sequence of
upload, pipeline, and regrade operations has a status among pending,
processing, done, failed, and whenever the status is failed the error
field is set.  The two "iff" halves of the claim fail: regrade never
clears `error`, and a stale queued invocation can carry a non-empty
`result` into non-done states. -/
theorem c6_persisted_records_wellformed (ops : List Op) :
    ∀ r ∈ (execTrace ops).savesLog,
      r.status ∈ (["pending", "processing", "done", "failed"] : List String) ∧
        (r.status = "failed" → r.error.isSome = true) := by
  intro r hr
  have h := @foldl_step_inv (fun st => ∀ r ∈ st.savesLog, saveWF r)
    step_preserves_savesWF ops initState (fun r hr => absurd hr (List.not_mem_nil r))
  obtain ⟨h1, h2⟩ := h r hr
  refine ⟨?_, h2⟩
  rcases h1 with h | h | h | h <;> rw [h] <;> decide

theorem c6_persisted_records_wellformed_witness :
    uploadRecord "r" "stu" ["i1"] 0 ∈ (execTrace [Op.upload "r" "stu" ["i1"] 0]).savesLog ∧
      ((uploadRecord "r" "stu" ["i1"] 0).status ∈
          (["pending", "processing", "done", "failed"] : List String) ∧
        ((uploadRecord "r" "stu" ["i1"] 0).status = "failed" →
          (uploadRecord "r" "stu" ["i1"] 0).error.isSome = true)) :=
  ⟨by decide,
   c6_persisted_records_wellformed [Op.upload "r" "stu" ["i1"] 0]
     (uploadRecord "r" "stu" ["i1"] 0) (by decide)⟩

/-- C7: when every image OCRs to non-whitespace text and the grading
call succeeds, the request sent to the grading model is the plan's
prompt, the fixed student-homework header, and the blank-line-joined
document of sections labeled by 1-based image position, and the final
record is done with that document as `ocr_text` and the model's
completion as `result`. -/
theorem c7_pipeline_success_output (env : PipelineEnv) (rec0 : Record)
    (body content : String)
    (hall : ∀ img ∈ rec0.images, usableText (env.ocr img) = true)
    (hne : rec0.images ≠ [])
    (hkey : env.apiKeySet = true)
    (hg : env.grade = GradeResponse.resp 200 body content) :
    (process_homework env rec0).request =
        some (env.prompt ++ "\n\n【学生作业内容】\n" ++
          String.intercalate "\n\n"
            (labeledSections 1 (rec0.images.map fun i => textOf (env.ocr i))) ++ "\n") ∧
      ∃ fin, (process_homework env rec0).saves.getLast? = some fin ∧
        fin.status = "done" ∧
        fin.ocr_text = some (String.intercalate "\n\n"
          (labeledSections 1 (rec0.images.map fun i => textOf (env.ocr i)))) ∧
        fin.result = content := by
  have hcoll : collectFrom env.ocr 1 rec0.images =
      labeledSections 1 (rec0.images.map fun i => textOf (env.ocr i)) :=
    collectFrom_of_usable env.ocr rec0.images hall 1
  have hne2 : collectFrom env.ocr 1 rec0.images ≠ [] := by
    rw [hcoll]
    cases himg : rec0.images with
    | nil => exact absurd himg hne
    | cons a rest => simp [labeledSections]
  have hne3 : collectFrom env.ocr 1 (procBegin env rec0).images ≠ [] := hne2
  have h1 : (procFinish env (procBegin env rec0)).1 =
      { procBegin env rec0 with
          status := "done"
          ocr_text := some (String.intercalate "\n\n" (collectFrom env.ocr 1 rec0.images))
          result := content
          updated_at := env.now2 } := by
    simp [procFinish, procBegin_images, hne2, hne3, hkey, hg]
  have h2 : (procFinish env (procBegin env rec0)).2 =
      some (env.prompt ++ "\n\n【学生作业内容】\n" ++
        String.intercalate "\n\n" (collectFrom env.ocr 1 rec0.images) ++ "\n") := by
    simp [procFinish, procBegin_images, hne2, hne3, hkey, hg]
  refine ⟨?_, (procFinish env (procBegin env rec0)).1, rfl, ?_, ?_, ?_⟩
  · show (procFinish env (procBegin env rec0)).2 = _
    rw [h2, hcoll]
  · rw [h1]
  · rw [h1]
    show some (String.intercalate "\n\n" (collectFrom env.ocr 1 rec0.images)) = _
    rw [hcoll]
  · rw [h1]

/-- Witness environment for C7, the spec's concrete scenario: two
images OCR to "2+2=4" and "3+3=6", the model returns "Grade: A". -/
def c7Env : PipelineEnv :=
  { ocr := fun s => if s = "i1" then OCROutcome.text "2+2=4" else OCROutcome.text "3+3=6"
    apiKeySet := true
    grade := GradeResponse.resp 200 "" "Grade: A"
    prompt := "请批改这份作业"
    now1 := 1
    now2 := 2 }

/-- Witness record for C7. -/
def c7Rec : Record := uploadRecord "r" "stu" ["i1", "i2"] 0

theorem c7_pipeline_success_output_witness :
    (∀ img ∈ c7Rec.images, usableText (c7Env.ocr img) = true) ∧
      c7Rec.images ≠ [] ∧
      c7Env.apiKeySet = true ∧
      c7Env.grade = GradeResponse.resp 200 "" "Grade: A" ∧
      ((process_homework c7Env c7Rec).request =
          some (c7Env.prompt ++ "\n\n【学生作业内容】\n" ++
            String.intercalate "\n\n"
              (labeledSections 1 (c7Rec.images.map fun i => textOf (c7Env.ocr i))) ++ "\n") ∧
        ∃ fin, (process_homework c7Env c7Rec).saves.getLast? = some fin ∧
          fin.status = "done" ∧
          fin.ocr_text = some (String.intercalate "\n\n"
            (labeledSections 1 (c7Rec.images.map fun i => textOf (c7Env.ocr i)))) ∧
          fin.result = "Grade: A") :=
  ⟨by decide, by decide, rfl, rfl,
   c7_pipeline_success_output c7Env c7Rec "" "Grade: A" (by decide) (by decide) rfl rfl⟩

/-- C8: the Tencent signer is deterministic — two invocations with the
same request payload, the same timestamp, and the same secret id and
key (under the same hash primitives) produce the identical
Authorization string; the derivation uses nothing but these inputs. -/
theorem c8_tencentSign_deterministic (prims : CryptoPrims)
    (id1 id2 key1 key2 payload1 payload2 : String) (ts1 ts2 : Nat)
    (hid : id1 = id2) (hkey : key1 = key2) (hp : payload1 = payload2) (ht : ts1 = ts2) :
    tencentSign prims id1 key1 payload1 ts1 = tencentSign prims id2 key2 payload2 ts2 := by
  rw [hid, hkey, hp, ht]

/-- Witness primitives for C8: any pure functions serve, since the
signer depends on nothing else. -/
def c8Prims : CryptoPrims :=
  { sha256hex := fun s => s
    hmacSha256 := fun k m => k ++ m
    hmacSha256hex := fun k m => k ++ m }

theorem c8_tencentSign_deterministic_witness :
    ("AKID" : String) = "AKID" ∧ ("sk" : String) = "sk" ∧
      ("payload" : String) = "payload" ∧ (1700000000 : Nat) = 1700000000 ∧
      tencentSign c8Prims "AKID" "sk" "payload" 1700000000 =
        tencentSign c8Prims "AKID" "sk" "payload" 1700000000 :=
  ⟨rfl, rfl, rfl, rfl,
   c8_tencentSign_deterministic c8Prims "AKID" "AKID" "sk" "sk" "payload" "payload"
     1700000000 1700000000 rfl rfl rfl rfl⟩

/-- C9: for any provider name whose lower-casing is outside the
enumeration tencent/baidu/ali the factory raises `ValueError` and
returns no adapter, and the Ali adapter's recognize raises
`NotImplementedError` on every input. -/
theorem c9_unknown_provider_and_ali_unimplemented (provider : String) (kw : OcrKwargs)
    (img : String)
    (h1 : pyLower provider ≠ "tencent")
    (h2 : pyLower provider ≠ "baidu")
    (h3 : pyLower provider ≠ "ali") :
    create_ocr_adapter provider kw =
        Except.error (PyError.valueError
          ("不支持的 OCR 提供商: " ++ pyLower provider ++ "，支持的有: tencent, baidu, ali")) ∧
      aliRecognize img = Except.error (PyError.notImplementedError "阿里云 OCR 适配器待实现") := by
  refine ⟨?_, rfl⟩
  simp [create_ocr_adapter, h1, h2, h3]

theorem c9_unknown_provider_and_ali_unimplemented_witness :
    pyLower "Azure" ≠ "tencent" ∧ pyLower "Azure" ≠ "baidu" ∧ pyLower "Azure" ≠ "ali" ∧
      (create_ocr_adapter "Azure" {} =
          Except.error (PyError.valueError
            ("不支持的 OCR 提供商: " ++ pyLower "Azure" ++ "，支持的有: tencent, baidu, ali")) ∧
        aliRecognize "img" =
          Except.error (PyError.notImplementedError "阿里云 OCR 适配器待实现")) :=
  ⟨by decide, by decide, by decide,
   c9_unknown_provider_and_ali_unimplemented "Azure" {} "img"
     (by decide) (by decide) (by decide)⟩

/-- C10: in the per-image loop, a missing file contributes nothing, a
whitespace-only OCR result contributes nothing, and only a raising OCR
call contributes the failure placeholder; hence a record whose images
are all missing or whitespace-only collects no sections at all and its
invocation ends failed with the no-recognized-text error. -/
theorem c10_unusable_images_silently_omitted (env : PipelineEnv) (rec0 : Record)
    (k : Nat) (t msg : String)
    (hws : pyStrip t = "")
    (hall : ∀ img ∈ rec0.images, unusable (env.ocr img) = true) :
    ocrSection k OCROutcome.missing = none ∧
      ocrSection k (OCROutcome.text t) = none ∧
      ocrSection k (OCROutcome.exn msg) =
        some ("【图片 " ++ toString k ++ "】\n(识别失败: " ++ msg ++ ")") ∧
      collectFrom env.ocr 1 rec0.images = [] ∧
      ∃ fin, (process_homework env rec0).saves.getLast? = some fin ∧
        fin.status = "failed" ∧
        fin.error = some "OCR 未识别到任何文字内容" := by
  have hc : collectFrom env.ocr 1 rec0.images = [] :=
    collectFrom_nil_of_unusable env.ocr rec0.images hall 1
  have hsv := process_no_text env rec0 hc
  refine ⟨rfl, ?_, rfl, hc,
    failRecord (procBegin env rec0) "OCR 未识别到任何文字内容" env.now2, ?_, rfl, rfl⟩
  · simp [ocrSection, hws]
  · rw [hsv]; rfl

/-- Witness environment for C10: one missing file, one whitespace OCR
result. -/
def c10Env : PipelineEnv :=
  { ocr := fun s => if s = "i1" then OCROutcome.missing else OCROutcome.text "\t  "
    apiKeySet := true
    grade := GradeResponse.resp 200 "" "ok"
    prompt := "P"
    now1 := 1
    now2 := 2 }

/-- Witness record for C10. -/
def c10Rec : Record := uploadRecord "r" "stu" ["i1", "i2"] 0

theorem c10_unusable_images_silently_omitted_witness :
    pyStrip " \n" = "" ∧
      (∀ img ∈ c10Rec.images, unusable (c10Env.ocr img) = true) ∧
      (ocrSection 3 OCROutcome.missing = none ∧
        ocrSection 3 (OCROutcome.text " \n") = none ∧
        ocrSection 3 (OCROutcome.exn "boom") =
          some ("【图片 " ++ toString 3 ++ "】\n(识别失败: " ++ "boom" ++ ")") ∧
        collectFrom c10Env.ocr 1 c10Rec.images = [] ∧
        ∃ fin, (process_homework c10Env c10Rec).saves.getLast? = some fin ∧
          fin.status = "failed" ∧
          fin.error = some "OCR 未识别到任何文字内容") :=
  ⟨by decide, by decide,
   c10_unusable_images_silently_omitted c10Env c10Rec 3 " \n" "boom"
     (by decide) (by decide)⟩

end Zhipi
